import Mathlib

/-
Verification development for the sims_utils coordinate-transform core.

Source files embedded (shallowly) here:
  src/python/lsst/sims/utils/ModifiedJulianDate.py
  src/python/lsst/sims/utils/AstrometryUtils.py
  src/python/lsst/sims/utils/ObservationMetaData.py (the site/mjd fields read
  by the astrometry pipeline)

Modelling conventions:
  - Python floats are modelled as elements of an abstract field `R`: every
    embedded definition is parametric in the carrier, so the definitions
    stay executable and concrete witnesses can be evaluated over ℚ, while
    theorems may also be read at carrier ℝ.  The transcendental pieces of
    numpy that the source uses (cos, and the constant pi inside the
    degree/radian conversions) are supplied by a `FloatOps` bundle.
  - A Python function that can raise is modelled as returning
    `Except PyErr _`; the different Python exception classes that the
    embedded code can raise (explicit RuntimeError validation failures,
    AttributeError from attribute access on None, TypeError from len() on a
    scalar, ValueError from a numpy broadcast failure) are separate
    constructors of `PyErr`, so that "fails with a configuration error"
    (an explicit RuntimeError raised by a validation check) is
    distinguishable from other failure modes.
  - External collaborator libraries (palpy, astropy.time, and the
    lsst.sims.utils spherical-geometry helpers that are not under src/) are
    modelled as bundles of abstract functions (`Palpy`, `Astropy`,
    `SimsUtilsCollab`) over which the embedded code is parametric: the
    embedded definitions record exactly which collaborator is called and
    with which arguments, without assuming anything about the numerics.
  - A numpy value that may be either a float scalar or a one-dimensional
    ndarray is modelled by `NpVal`; elementwise arithmetic between two
    `NpVal`s follows numpy broadcasting rules (equal lengths operate
    elementwise, a length-one array broadcasts, anything else raises a
    ValueError).  Python `list` inputs, which some entry points reject
    with a RuntimeError, are outside this type and are noted where they
    are dropped.
-/

/-- Python exception classes that the embedded code can raise.  An explicit
RuntimeError raised by a validation check is what the specification calls a
configuration error. -/
inductive PyErr
  | runtimeError (msg : String)
  | attributeError (msg : String)
  | typeError (msg : String)
  | valueError (msg : String)
deriving DecidableEq, Repr

/-- True exactly for an explicit RuntimeError: the failure mode the
specification calls a configuration error. -/
def PyErr.isConfigError : PyErr → Bool
  | .runtimeError _ => true
  | _ => false

/-- True when the computation failed with a configuration error
(an explicit RuntimeError). -/
def Except.failedWithConfigError {α : Type} : Except PyErr α → Bool
  | .error e => e.isConfigError
  | .ok _ => false

/-- True when the computation returned normally (did not raise). -/
def Except.succeeded {ε α : Type} : Except ε α → Bool
  | .ok _ => true
  | .error _ => false

/-- The two time scales in which a ModifiedJulianDate can be constructed
(`Time(TAI, scale=..)` uses the tai tag, `Time(UTC, scale=..)` the utc tag). -/
inductive TimeScale
  | tai
  | utc
deriving DecidableEq, Repr

/-- The transcendental numpy services the embedded source uses: the cosine
ufunc and the constant pi that numpy.degrees and numpy.radians multiply by.
Supplied as a parameter so the embedding stays executable over any field;
at carrier ℝ the intended instantiation is cos = Real.cos, pi = Real.pi. -/
structure FloatOps (R : Type) where
  cos : R → R
  pi : R

/-- Abstract model of the astropy.time.Time conversion services consumed by
ModifiedJulianDate.py.  Each conversion is a function of the scale tag and
value the Time object was constructed with.  The UT1 conversion and the
UT1-UTC offset lookup return `none` when the requested instant lies outside
the known IERS earth-orientation table (the situation in which the real
astropy call raises and the source falls back); the nested unwrap of the
astropy Quantity (`intermediate_value.value`) is modelled as already
unwrapped. -/
structure Astropy (R : Type) where
  utc_of : TimeScale → R → R
  tai_of : TimeScale → R → R
  tt_of : TimeScale → R → R
  tdb_of : TimeScale → R → R
  ut1_of : TimeScale → R → Option R
  delta_ut1 : TimeScale → R → Option R

/-- State of a constructed ModifiedJulianDate: the canonical reading
(`self._time`) is the pair of the scale it was given in and its value.
The lazily cached derived fields of the Python object are pure functions
of this state, so they are modelled as the property functions below
rather than as mutable cache slots. -/
structure ModifiedJulianDate (R : Type) where
  time_scale : TimeScale
  time_value : R

/-- Embedding of `ModifiedJulianDate.__init__` (ModifiedJulianDate.py lines
14-41): raises a RuntimeError when neither TAI nor UTC is given; otherwise,
when TAI is given (whether or not UTC is also given) the canonical time is
built from TAI, and only when TAI is absent is it built from UTC. -/
def ModifiedJulianDate.construct {R : Type} (TAI UTC : Option R) :
    Except PyErr (ModifiedJulianDate R) :=
  match TAI, UTC with
  | none, none =>
      .error (.runtimeError
        "You must specify either TAI or UTC to instantiate ModifiedJulianDate")
  | some t, _ => .ok { time_scale := .tai, time_value := t }
  | none, some u => .ok { time_scale := .utc, time_value := u }

/-- Embedding of the `TAI` property: the stored value when constructed from
TAI, otherwise the astropy conversion of the canonical time. -/
def ModifiedJulianDate.TAI {R : Type} (m : ModifiedJulianDate R)
    (A : Astropy R) : R :=
  match m.time_scale with
  | .tai => m.time_value
  | .utc => A.tai_of .utc m.time_value

/-- Embedding of the `UTC` property: the stored value when constructed from
UTC, otherwise the astropy conversion of the canonical time. -/
def ModifiedJulianDate.UTC {R : Type} (m : ModifiedJulianDate R)
    (A : Astropy R) : R :=
  match m.time_scale with
  | .utc => m.time_value
  | .tai => A.utc_of .tai m.time_value

/-- Embedding of the `TT` property (always computed from the canonical
time). -/
def ModifiedJulianDate.TT {R : Type} (m : ModifiedJulianDate R)
    (A : Astropy R) : R :=
  A.tt_of m.time_scale m.time_value

/-- Embedding of the `TDB` property (always computed from the canonical
time). -/
def ModifiedJulianDate.TDB {R : Type} (m : ModifiedJulianDate R)
    (A : Astropy R) : R :=
  A.tdb_of m.time_scale m.time_value

/-- Embedding of the `UT1` property (ModifiedJulianDate.py lines 66-79).
The returned pair is the value together with the list of warnings emitted:
when the astropy UT1 conversion raises (instant outside the IERS table) the
property warns and returns UTC instead; no exception escapes the property. -/
def ModifiedJulianDate.UT1 {R : Type} (m : ModifiedJulianDate R)
    (A : Astropy R) : R × List String :=
  match A.ut1_of m.time_scale m.time_value with
  | some v => (v, [])
  | none =>
      (m.UTC A,
       ["UTC is outside of IERS table for UT1-UTC. Returning UT1 = UTC for lack of a better idea"])

/-- Embedding of the `dut1` property (ModifiedJulianDate.py lines 81-99).
The returned pair is the UT1-UTC offset in seconds together with the list
of warnings emitted: when the astropy offset lookup raises (instant outside
the IERS table) the property warns and returns 0.0; no exception escapes
the property. -/
def ModifiedJulianDate.dut1 {R : Type} [Zero R] (m : ModifiedJulianDate R)
    (A : Astropy R) : R × List String :=
  match A.delta_ut1 m.time_scale m.time_value with
  | some v => (v, [])
  | none =>
      (0,
       ["UTC is outside of IERS table for UT1-UTC. Returning UT1 = UTC for lack of a better idea"])

/-- Modelled from the spec: the Site class is part of this repository but
not under src/ (AstrometryUtils.py imports it through lsst.sims.utils).
Spec section 3 describes it as an immutable telescope-location record with
geodetic latitude/longitude in radians, height, ambient
temperature/pressure/humidity and a lapse rate.  The source reads both a
`temperature` attribute and a `temperature_kelvin` attribute: these are the
Celsius and Kelvin readings of the same ambient temperature, so the Kelvin
reading exceeds the Celsius reading by 273.15. -/
structure Site (R : Type) [Field R] where
  longitude_rad : R
  latitude_rad : R
  height : R
  temperature : R
  temperature_kelvin : R
  pressure : R
  humidity : R
  lapseRate : R
  kelvin_is_celsius_shifted : temperature_kelvin = temperature + 27315 / 100

/-- The two fields of ObservationMetaData (ObservationMetaData.py) that the
astrometry pipeline reads: `site` and `mjd`.  Either can be None. -/
structure ObservationMetaData (R : Type) [Field R] where
  site : Option (Site R)
  mjd : Option (ModifiedJulianDate R)

/-- Python attribute access on a possibly-None value: `x.attr` raises an
AttributeError when `x` is None. -/
def attrGet {α : Type} (x : Option α) (msg : String) : Except PyErr α :=
  match x with
  | some v => .ok v
  | none => .error (.attributeError msg)

/-- A numpy value as used by the embedded entry points: either a Python
float scalar or a one-dimensional float array. -/
inductive NpVal (R : Type)
  | scalar (x : R)
  | array (xs : List R)
deriving DecidableEq

/-- Elementwise application of a scalar function (numpy ufunc on one
argument, or plain float arithmetic on a scalar). -/
def npMap {R : Type} (f : R → R) : NpVal R → NpVal R
  | .scalar x => .scalar (f x)
  | .array xs => .array (xs.map f)

/-- Binary elementwise operation between two one-dimensional numpy arrays
with numpy broadcasting: equal lengths operate elementwise, a length-one
operand is stretched to the other length, any other combination raises a
ValueError. -/
def listBroadcast {R : Type} [Zero R] (f : R → R → R) (as bs : List R) :
    Except PyErr (List R) :=
  if as.length = bs.length then .ok (List.zipWith f as bs)
  else if as.length = 1 then .ok (bs.map (fun b => f (as.headD 0) b))
  else if bs.length = 1 then .ok (as.map (fun a => f a (bs.headD 0)))
  else .error (.valueError "operands could not be broadcast together")

/-- Binary elementwise operation between two numpy values (scalar-array
mixes broadcast the scalar; array-array follows `listBroadcast`). -/
def npBroadcast {R : Type} [Zero R] (f : R → R → R) :
    NpVal R → NpVal R → Except PyErr (NpVal R)
  | .scalar a, .scalar b => .ok (.scalar (f a b))
  | .scalar a, .array bs => .ok (.array (bs.map (fun b => f a b)))
  | .array as, .scalar b => .ok (.array (as.map (fun a => f a b)))
  | .array as, .array bs => (listBroadcast f as bs).map .array

/-- Python len(): defined on an array, a TypeError on a float scalar. -/
def npLen {R : Type} : NpVal R → Except PyErr Nat
  | .array xs => .ok xs.length
  | .scalar _ => .error (.typeError "object of type float has no len")

/-- Extraction of the scalar payload: a palpy scalar routine given an array
argument fails with a TypeError. -/
def npAsScalar {R : Type} : NpVal R → Except PyErr R
  | .scalar x => .ok x
  | .array _ => .error (.typeError "a float is required")

/-- Extraction of the array payload: a palpy vector routine given a scalar
argument fails with a TypeError. -/
def npAsArray {R : Type} : NpVal R → Except PyErr (List R)
  | .array xs => .ok xs
  | .scalar _ => .error (.typeError "an ndarray is required")

/-- Dot product of two rows, used to spell out numpy.dot on matrices. -/
def dotProd {R : Type} [Field R] (a b : List R) : R :=
  (List.zipWith (fun x y => x * y) a b).sum

/-- Matrix product (numpy.dot of two two-dimensional arrays): entry i j is
the dot product of row i of the left factor with column j of the right
factor. -/
def matMul {R : Type} [Field R] (m x : List (List R)) : List (List R) :=
  m.map (fun row => x.transpose.map (fun col => dotProd row col))

/-- Degree value of an angle held in radians (numpy.degrees). -/
def degreesC {R : Type} [Field R] (O : FloatOps R) (x : R) : R :=
  x * (180 / O.pi)

/-- Radian value of an angle held in degrees (numpy.radians). -/
def radiansC {R : Type} [Field R] (O : FloatOps R) (x : R) : R :=
  x * (O.pi / 180)

/-- Modelled from the spec: arcsecond/radian conversion utility
`arcsecFromRadians` of lsst.sims.utils, a collaborator of this repository
that is not under src/; spec section 6 lists it among the consumed
arcsecond/radian conversion utilities.  One radian is 180*3600/pi
arcseconds. -/
def arcsecFromRadians {R : Type} [Field R] (O : FloatOps R) (x : R) : R :=
  3600 * degreesC O x

/-- Modelled from the spec: arcsecond/radian conversion utility
`radiansFromArcsec` of lsst.sims.utils, a collaborator of this repository
that is not under src/; spec section 6 lists it among the consumed
arcsecond/radian conversion utilities. -/
def radiansFromArcsec {R : Type} [Field R] (O : FloatOps R) (x : R) : R :=
  radiansC O (x / 3600)

/-- Abstract model of the palpy astronomy-primitives library: one field per
routine called by AstrometryUtils.py, with the list-of-floats shapes the
source manipulates (parameter blocks are float arrays, vector routines take
and return float arrays).  The embedded code is parametric in this bundle:
nothing about the numerics of the primitives is assumed. -/
structure Palpy (R : Type) where
  mappa : R → R → List R
  dcc2s : List R → R × R
  refco : R → R → R → R → R → R → R → R → R × R
  refz : R → R → R → R
  refzVector : List R → R → R → List R
  prenut : R → R → List (List R)
  epj : R → R
  pm : R → R → R → R → R → R → R → R → R × R
  pmVector : List R → List R → List R → List R → List R → List R → R → R →
    List R × List R
  mapqkVector : List R → List R → List R → List R → List R → List R →
    List R → List R × List R
  ampqkVector : List R → List R → List R → List R × List R
  aoppa : R → R → R → R → R → R → R → R → R → R → R → R → List R
  aopqkVector : List R → List R → List R →
    List R × List R × List R × List R × List R
  de2hVector : List R → List R → R → List R × List R
  oapqkVector : String → List R → List R → List R → List R × List R

/-- Abstract model of the lsst.sims.utils spherical-geometry helpers
consumed by AstrometryUtils.py (spec section 2 places them out of scope, as
primitive utility calls): haversine great-circle distance and the
spherical/Cartesian conversions.  `cartesianFromSpherical` returns the
n-by-3 array of unit vectors the source transposes and rotates. -/
structure SimsUtilsCollab (R : Type) where
  haversine : NpVal R → NpVal R → NpVal R → NpVal R → NpVal R
  cartesianFromSpherical : NpVal R → NpVal R → List (List R)
  sphericalFromCartesian : List (List R) → NpVal R × NpVal R

section AstrometryEmbedding

variable {R : Type} [Field R]

/-- Embedding of `_solarRaDec` (AstrometryUtils.py lines 20-38): builds the
mean-to-apparent parameter block, takes the slice params[4:7] (the unit
vector pointing from the Sun to the Earth), negates it and converts the
result to spherical angles; RA and Dec of the Sun in radians. -/
def solarRaDecRad (P : Palpy R) (mjd epoch : R) : R × R :=
  let params := P.mappa epoch mjd
  P.dcc2s (((params.drop 4).take 3).map (fun x => -1 * x))

/-- Embedding of the degrees-facing `solarRaDec` (lines 41-56). -/
def solarRaDec (P : Palpy R) (O : FloatOps R) (mjd epoch : R) : R × R :=
  let rd := solarRaDecRad P mjd epoch
  (degreesC O rd.1, degreesC O rd.2)

/-- Embedding of `_distanceToSun` (lines 59-82): haversine distance between
a sky position (scalar or array) and the solar position; for an array input
the solar position is replicated to the input length. -/
def distanceToSunRad (P : Palpy R) (C : SimsUtilsCollab R)
    (ra dec : NpVal R) (mjd epoch : R) : NpVal R :=
  let sun := solarRaDecRad P mjd epoch
  match ra with
  | .array ras =>
      C.haversine ra dec (.array (List.replicate ras.length sun.1))
        (.array (List.replicate ras.length sun.2))
  | .scalar _ => C.haversine ra dec (.scalar sun.1) (.scalar sun.2)

/-- Embedding of the degrees-facing `distanceToSun` (lines 85-102). -/
def distanceToSun (P : Palpy R) (C : SimsUtilsCollab R) (O : FloatOps R)
    (ra dec : NpVal R) (mjd epoch : R) : NpVal R :=
  npMap (degreesC O)
    (distanceToSunRad P C (npMap (radiansC O) ra) (npMap (radiansC O) dec)
      mjd epoch)

/-- Embedding of `refractionCoefficients` (lines 105-135): fails with a
configuration error when no site is given; otherwise calls palpy.refco with
the site atmosphere data, the wavelength, the geodetic latitude (the noted
astronomical-latitude approximation) and precision 1e-10, returning the
tan z and tan cubed z coefficients.  There is no separate degrees-facing
wrapper of this function in the source: it exists in this single
radians-facing form. -/
def refractionCoefficients (P : Palpy R) (wavelength : R)
    (site : Option (Site R)) : Except PyErr (R × R) :=
  match site with
  | none =>
      .error (.runtimeError
        "Cannot call refractionCoefficients; no site information")
  | some s =>
      let out := P.refco s.height s.temperature_kelvin s.pressure s.humidity
        wavelength s.latitude_rad s.lapseRate (1 / 10 ^ 10)
      .ok (out.1, out.2)

/-- Embedding of `applyRefraction` (lines 138-164): elementwise refracted
zenith distance, palpy.refzVector on an array and palpy.refz on a scalar,
all in radians.  The Python-list input, which the source rejects with a
RuntimeError, is outside `NpVal` and so outside this embedding.  There is
no separate degrees-facing wrapper of this function in the source: it
exists in this single radians-facing form. -/
def applyRefraction (P : Palpy R) :
    NpVal R → R → R → NpVal R
  | .array xs, tanzCoeff, tan3zCoeff => .array (P.refzVector xs tanzCoeff tan3zCoeff)
  | .scalar x, tanzCoeff, tan3zCoeff => .scalar (P.refz x tanzCoeff tan3zCoeff)

/-- Embedding of `_applyPrecession` (lines 200-246): array-length
validation (only when the RA input is an array), mjd-present validation,
then rotation of the Cartesian unit vectors by the palpy.prenut
precession-nutation matrix for (epoch, TT of the mjd). -/
def applyPrecessionRad (P : Palpy R) (C : SimsUtilsCollab R)
    (A : Astropy R) (ra dec : NpVal R) (epoch : R)
    (mjd : Option (ModifiedJulianDate R)) :
    Except PyErr (NpVal R × NpVal R) := do
  (match ra with
   | .array ras => do
       let ld ← npLen dec
       if ras.length ≠ ld then
         throw (PyErr.runtimeError
           "You supplied different numbers of RAs and Decs to applyPrecession")
   | .scalar _ => pure ())
  match mjd with
  | none =>
      throw (PyErr.runtimeError "You need to supply applyPrecession with an mjd")
  | some m => do
      let rmat := P.prenut epoch (m.TT A)
      let xyz := C.cartesianFromSpherical ra dec
      let xyz2 := (matMul rmat xyz.transpose).transpose
      let rd := C.sphericalFromCartesian xyz2
      return (rd.1, rd.2)

/-- Embedding of the degrees-facing `applyPrecession` (lines 167-196). -/
def applyPrecession (P : Palpy R) (C : SimsUtilsCollab R) (A : Astropy R)
    (O : FloatOps R) (ra dec : NpVal R) (epoch : R)
    (mjd : Option (ModifiedJulianDate R)) :
    Except PyErr (NpVal R × NpVal R) := do
  let output ← applyPrecessionRad P C A (npMap (radiansC O) ra)
    (npMap (radiansC O) dec) epoch mjd
  return (npMap (degreesC O) output.1, npMap (degreesC O) output.2)

/-- Embedding of `_applyProperMotion` (lines 296-382): mjd-present
validation, conversion of the parallax to arcseconds, Julian epoch from TT,
division of the coordinate-angle RA proper motion by cos(dec) (numpy
broadcasting), then, on the array path, the six-way length validation
followed by palpy.pmVector, or palpy.pm on the scalar path.  The
Python-list inputs, which the source rejects with a RuntimeError at entry,
are outside `NpVal` and so outside this embedding. -/
def applyProperMotionRad (P : Palpy R) (A : Astropy R) (O : FloatOps R)
    (ra dec pm_ra pm_dec parallax v_rad : NpVal R) (epoch : R)
    (mjd : Option (ModifiedJulianDate R)) :
    Except PyErr (NpVal R × NpVal R) := do
  match mjd with
  | none => throw (PyErr.runtimeError "cannot call applyProperMotion; mjd is None")
  | some m => do
    let parallaxArcsec := npMap (arcsecFromRadians O) parallax
    let julianEpoch := P.epj (m.TT A)
    let pm_ra_corrected ← npBroadcast (fun a b => a / b) pm_ra (npMap O.cos dec)
    match ra with
    | .array ras => do
        let ld ← npLen dec
        if ras.length ≠ ld then
          throw (PyErr.runtimeError
            "You passed different numbers of values to applyPm; those numbers need to be identical.")
        else do
        let lp ← npLen pm_ra
        if ras.length ≠ lp then
          throw (PyErr.runtimeError
            "You passed different numbers of values to applyPm; those numbers need to be identical.")
        else do
        let lq ← npLen pm_dec
        if ras.length ≠ lq then
          throw (PyErr.runtimeError
            "You passed different numbers of values to applyPm; those numbers need to be identical.")
        else do
        let lx ← npLen parallaxArcsec
        if ras.length ≠ lx then
          throw (PyErr.runtimeError
            "You passed different numbers of values to applyPm; those numbers need to be identical.")
        else do
        let lv ← npLen v_rad
        if ras.length ≠ lv then
          throw (PyErr.runtimeError
            "You passed different numbers of values to applyPm; those numbers need to be identical.")
        else do
        let decs ← npAsArray dec
        let pmras ← npAsArray pm_ra_corrected
        let pmdecs ← npAsArray pm_dec
        let pxs ← npAsArray parallaxArcsec
        let vrads ← npAsArray v_rad
        let out := P.pmVector ras decs pmras pmdecs pxs vrads epoch julianEpoch
        return (.array out.1, .array out.2)
    | .scalar rx => do
        let dx ← npAsScalar dec
        let px ← npAsScalar pm_ra_corrected
        let qx ← npAsScalar pm_dec
        let xx ← npAsScalar parallaxArcsec
        let vx ← npAsScalar v_rad
        let out := P.pm rx dx px qx xx vx epoch julianEpoch
        return (.scalar out.1, .scalar out.2)

/-- Embedding of the degrees-facing `applyProperMotion` (lines 249-293):
degree inputs to radians, arcsecond motion terms to radians, radial
velocity passed through, and degree outputs. -/
def applyProperMotion (P : Palpy R) (A : Astropy R) (O : FloatOps R)
    (ra dec pm_ra pm_dec parallax v_rad : NpVal R) (epoch : R)
    (mjd : Option (ModifiedJulianDate R)) :
    Except PyErr (NpVal R × NpVal R) := do
  let output ← applyProperMotionRad P A O (npMap (radiansC O) ra)
    (npMap (radiansC O) dec) (npMap (radiansFromArcsec O) pm_ra)
    (npMap (radiansFromArcsec O) pm_dec) (npMap (radiansFromArcsec O) parallax)
    v_rad epoch mjd
  return (npMap (degreesC O) output.1, npMap (degreesC O) output.2)

/-- Embedding of `_appGeoFromICRS` (lines 441-517): mjd-present validation,
RA/Dec length validation, zero-array defaults for the omitted motion terms
(of the RA length), the mean-to-apparent parameter block from (epoch, TDB),
division of the coordinate-angle RA proper motion by cos(dec) (numpy
broadcasting), then palpy.mapqkVector with the parallax converted to
arcseconds. -/
def appGeoFromICRSRad (P : Palpy R) (A : Astropy R) (O : FloatOps R)
    (ra dec : List R) (pm_ra pm_dec parallax v_rad : Option (List R))
    (epoch : R) (mjd : Option (ModifiedJulianDate R)) :
    Except PyErr (List R × List R) := do
  match mjd with
  | none => throw (PyErr.runtimeError "cannot call appGeoFromICRS; mjd is None")
  | some m => do
    if ra.length ≠ dec.length then
      throw (PyErr.runtimeError
        "appGeoFromICRS: len of ra does not match len of dec")
    else do
    let pm_ra_v := pm_ra.getD (List.replicate ra.length 0)
    let pm_dec_v := pm_dec.getD (List.replicate ra.length 0)
    let v_rad_v := v_rad.getD (List.replicate ra.length 0)
    let parallax_v := parallax.getD (List.replicate ra.length 0)
    let prms := P.mappa epoch (m.TDB A)
    let pm_ra_corrected ← listBroadcast (fun a b => a / b) pm_ra_v
      (dec.map O.cos)
    let out := P.mapqkVector ra dec pm_ra_corrected pm_dec_v
      (parallax_v.map (arcsecFromRadians O)) v_rad_v prms
    return (out.1, out.2)

/-- Embedding of the degrees-facing `appGeoFromICRS` (lines 386-438): the
optional arcsecond motion terms are converted to radians when present and
left as None otherwise; degree inputs to radians; degree outputs. -/
def appGeoFromICRS (P : Palpy R) (A : Astropy R) (O : FloatOps R)
    (ra dec : List R) (pm_ra pm_dec parallax v_rad : Option (List R))
    (epoch : R) (mjd : Option (ModifiedJulianDate R)) :
    Except PyErr (List R × List R) := do
  let pm_ra_in := match pm_ra with
    | some xs => some (xs.map (radiansFromArcsec O))
    | none => none
  let pm_dec_in := match pm_dec with
    | some xs => some (xs.map (radiansFromArcsec O))
    | none => none
  let px_in := match parallax with
    | some xs => some (xs.map (radiansFromArcsec O))
    | none => none
  let output ← appGeoFromICRSRad P A O (ra.map (radiansC O))
    (dec.map (radiansC O)) pm_ra_in pm_dec_in px_in v_rad epoch mjd
  return (output.1.map (degreesC O), output.2.map (degreesC O))

/-- Embedding of `_icrsFromAppGeo` (lines 520-562): no validation at all;
`mjd.TDB` is an attribute access that raises an AttributeError when the mjd
is None; otherwise the mean-to-apparent parameter block is built from
(epoch, TDB) and palpy.ampqkVector applies its algebraic inverse. -/
def icrsFromAppGeoRad (P : Palpy R) (A : Astropy R) (ra dec : List R)
    (epoch : R) (mjd : Option (ModifiedJulianDate R)) :
    Except PyErr (List R × List R) := do
  let m ← attrGet mjd "NoneType object has no attribute TDB"
  let params := P.mappa epoch (m.TDB A)
  let out := P.ampqkVector ra dec params
  return (out.1, out.2)

/-- Embedding of the degrees-facing `icrsFromAppGeo` (lines 565-596). -/
def icrsFromAppGeo (P : Palpy R) (A : Astropy R) (O : FloatOps R)
    (ra dec : List R) (epoch : R) (mjd : Option (ModifiedJulianDate R)) :
    Except PyErr (List R × List R) := do
  let out ← icrsFromAppGeoRad P A (ra.map (radiansC O)) (dec.map (radiansC O))
    epoch mjd
  return (out.1.map (degreesC O), out.2.map (degreesC O))

/-- Embedding of `_calculateObservatoryParameters` (lines 647-712): polar
motion fixed at zero; with refraction the palpy.aoppa call receives the
UTC, the dut1 offset, the site geometry, the Kelvin temperature, pressure,
humidity, wavelength and lapse rate; without refraction the pressure and
humidity arguments are zeroed and the temperature argument is the sites
Celsius `temperature` attribute (not `temperature_kelvin`).  The attribute
chains obs_metadata.mjd.UTC etc. raise AttributeErrors when the pieces are
None, in the order the source reads them (mjd before site). -/
def calculateObservatoryParameters (P : Palpy R) (A : Astropy R)
    (obs : Option (ObservationMetaData R)) (wavelength : R)
    (includeRefraction : Bool) : Except PyErr (List R) := do
  let o ← attrGet obs "NoneType object has no attribute mjd"
  let m ← attrGet o.mjd "NoneType object has no attribute UTC"
  let s ← attrGet o.site "NoneType object has no attribute longitude_rad"
  if includeRefraction then
    return P.aoppa (m.UTC A) (m.dut1 A).1 s.longitude_rad s.latitude_rad
      s.height 0 0 s.temperature_kelvin s.pressure s.humidity wavelength
      s.lapseRate
  else
    return P.aoppa (m.UTC A) (m.dut1 A).1 s.longitude_rad s.latitude_rad
      s.height 0 0 s.temperature 0 0 wavelength s.lapseRate

/-- Embedding of `_observedFromAppGeo` (lines 715-786): validation that the
observation metadata, its site and its mjd are present and that the RA/Dec
lengths match, then the observatory parameter block and palpy.aopqkVector
(which returns azimuth, zenith distance, hour angle, observed Dec, observed
RA); when altAzHr is set the hour angle and Dec are further converted to
horizon coordinates with palpy.de2hVector and returned alongside. -/
def observedFromAppGeoRad (P : Palpy R) (A : Astropy R) (ra dec : List R)
    (includeRefraction altAzHr : Bool) (wavelength : R)
    (obs : Option (ObservationMetaData R)) :
    Except PyErr ((List R × List R) × Option (List R × List R)) := do
  match obs with
  | none =>
      throw (PyErr.runtimeError
        "Cannot call observedFromAppGeo without an obs_metadata")
  | some o =>
    match o.site with
    | none =>
        throw (PyErr.runtimeError
          "Cannot call observedFromAppGeo: obs_metadata has no site info")
    | some s =>
      match o.mjd with
      | none =>
          throw (PyErr.runtimeError
            "Cannot call observedFromAppGeo: obs_metadata has no mjd")
      | some _ => do
        if ra.length ≠ dec.length then
          throw (PyErr.runtimeError
            "You passed different numbers of RAs and Decs to observedFromAppGeo")
        else do
        let obsPrms ← calculateObservatoryParameters P A obs wavelength
          includeRefraction
        let out := P.aopqkVector ra dec obsPrms
        let hourAngle := out.2.2.1
        let decOut := out.2.2.2.1
        let raOut := out.2.2.2.2
        if altAzHr then
          let azalt := P.de2hVector hourAngle decOut s.latitude_rad
          return ((raOut, decOut), some (azalt.2, azalt.1))
        else
          return ((raOut, decOut), none)

/-- Embedding of the degrees-facing `observedFromAppGeo` (lines 599-644):
the source branches on altAzHr only to unpack one or two returned arrays;
numpy.degrees is applied to every returned array in both branches. -/
def observedFromAppGeo (P : Palpy R) (A : Astropy R) (O : FloatOps R)
    (ra dec : List R) (includeRefraction altAzHr : Bool) (wavelength : R)
    (obs : Option (ObservationMetaData R)) :
    Except PyErr ((List R × List R) × Option (List R × List R)) := do
  let r ← observedFromAppGeoRad P A (ra.map (radiansC O))
    (dec.map (radiansC O)) includeRefraction altAzHr wavelength obs
  return ((r.1.1.map (degreesC O), r.1.2.map (degreesC O)),
    r.2.map (fun q => (q.1.map (degreesC O), q.2.map (degreesC O))))

/-- Embedding of `_appGeoFromObserved` (lines 823-865): the same four
validations as `_observedFromAppGeo`, the observatory parameter block, then
palpy.oapqkVector with type tag r. -/
def appGeoFromObservedRad (P : Palpy R) (A : Astropy R) (ra dec : List R)
    (includeRefraction : Bool) (wavelength : R)
    (obs : Option (ObservationMetaData R)) :
    Except PyErr (List R × List R) := do
  match obs with
  | none =>
      throw (PyErr.runtimeError
        "Cannot call appGeoFromObserved without an obs_metadata")
  | some o =>
    match o.site with
    | none =>
        throw (PyErr.runtimeError
          "Cannot call appGeoFromObserved: obs_metadata has no site info")
    | some _ =>
      match o.mjd with
      | none =>
          throw (PyErr.runtimeError
            "Cannot call appGeoFromObserved: obs_metadata has no mjd")
      | some _ => do
        if ra.length ≠ dec.length then
          throw (PyErr.runtimeError
            "You passed different numbers of RAs and Decs to appGeoFromObserved")
        else do
        let obsPrms ← calculateObservatoryParameters P A obs wavelength
          includeRefraction
        let out := P.oapqkVector "r" ra dec obsPrms
        return (out.1, out.2)

/-- Embedding of the degrees-facing `appGeoFromObserved` (lines 789-820). -/
def appGeoFromObserved (P : Palpy R) (A : Astropy R) (O : FloatOps R)
    (ra dec : List R) (includeRefraction : Bool) (wavelength : R)
    (obs : Option (ObservationMetaData R)) :
    Except PyErr (List R × List R) := do
  let out ← appGeoFromObservedRad P A (ra.map (radiansC O))
    (dec.map (radiansC O)) includeRefraction wavelength obs
  return (out.1.map (degreesC O), out.2.map (degreesC O))

/-- Embedding of `_observedFromICRS` (lines 927-982): validation that the
observation metadata, its mjd and the epoch are present and that the RA/Dec
lengths match, then `_appGeoFromICRS` followed by `_observedFromAppGeo` in
radians (with the refraction flag passed through and the altAzHr and
wavelength defaults False and 0.5). -/
def observedFromICRSRad (P : Palpy R) (A : Astropy R) (O : FloatOps R)
    (ra dec : List R) (pm_ra pm_dec parallax v_rad : Option (List R))
    (obs : Option (ObservationMetaData R)) (epoch : Option R)
    (includeRefraction : Bool) : Except PyErr (List R × List R) := do
  match obs with
  | none =>
      throw (PyErr.runtimeError
        "cannot call observedFromICRS; obs_metadata is none")
  | some o =>
    match o.mjd with
    | none =>
        throw (PyErr.runtimeError
          "cannot call observedFromICRS; obs_metadata.mjd is none")
    | some _ =>
      match epoch with
      | none =>
          throw (PyErr.runtimeError
            "cannot call observedFromICRS; you have not specified an epoch")
      | some e => do
        if ra.length ≠ dec.length then
          throw (PyErr.runtimeError
            "You passed different numbers of RAs and Decs to observedFromICRS")
        else do
        let app ← appGeoFromICRSRad P A O ra dec pm_ra pm_dec parallax v_rad
          e o.mjd
        let r ← observedFromAppGeoRad P A app.1 app.2 includeRefraction false
          (1 / 2) obs
        return r.1

/-- Embedding of the degrees-facing `observedFromICRS` (lines 868-923). -/
def observedFromICRS (P : Palpy R) (A : Astropy R) (O : FloatOps R)
    (ra dec : List R) (pm_ra pm_dec parallax v_rad : Option (List R))
    (obs : Option (ObservationMetaData R)) (epoch : Option R)
    (includeRefraction : Bool) : Except PyErr (List R × List R) := do
  let pm_ra_in := match pm_ra with
    | some xs => some (xs.map (radiansFromArcsec O))
    | none => none
  let pm_dec_in := match pm_dec with
    | some xs => some (xs.map (radiansFromArcsec O))
    | none => none
  let px_in := match parallax with
    | some xs => some (xs.map (radiansFromArcsec O))
    | none => none
  let output ← observedFromICRSRad P A O (ra.map (radiansC O))
    (dec.map (radiansC O)) pm_ra_in pm_dec_in px_in v_rad obs epoch
    includeRefraction
  return (output.1.map (degreesC O), output.2.map (degreesC O))

/-- Embedding of `_icrsFromObserved` (lines 1022-1072): validation that the
observation metadata, its mjd and the epoch are present and that the RA/Dec
lengths match, then `_appGeoFromObserved` followed by `_icrsFromAppGeo` in
radians (with the refraction flag passed through and the wavelength default
0.5). -/
def icrsFromObservedRad (P : Palpy R) (A : Astropy R) (ra dec : List R)
    (obs : Option (ObservationMetaData R)) (epoch : Option R)
    (includeRefraction : Bool) : Except PyErr (List R × List R) := do
  match obs with
  | none =>
      throw (PyErr.runtimeError
        "cannot call icrsFromObserved; obs_metadata is None")
  | some o =>
    match o.mjd with
    | none =>
        throw (PyErr.runtimeError
          "cannot call icrsFromObserved; obs_metadata.mjd is None")
    | some _ =>
      match epoch with
      | none =>
          throw (PyErr.runtimeError
            "cannot call icrsFromObserved; you have not specified an epoch")
      | some e => do
        if ra.length ≠ dec.length then
          throw (PyErr.runtimeError
            "You passed different numbers of RAs and Decs to icrsFromObserved")
        else do
        let app ← appGeoFromObservedRad P A ra dec includeRefraction (1 / 2)
          obs
        let r ← icrsFromAppGeoRad P A app.1 app.2 e o.mjd
        return r

/-- Embedding of the degrees-facing `icrsFromObserved` (lines 985-1019). -/
def icrsFromObserved (P : Palpy R) (A : Astropy R) (O : FloatOps R)
    (ra dec : List R) (obs : Option (ObservationMetaData R))
    (epoch : Option R) (includeRefraction : Bool) :
    Except PyErr (List R × List R) := do
  let out ← icrsFromObservedRad P A (ra.map (radiansC O))
    (dec.map (radiansC O)) obs epoch includeRefraction
  return (out.1.map (degreesC O), out.2.map (degreesC O))

end AstrometryEmbedding

/-
Concrete rational-carrier instantiations of the collaborator bundles, used
only to state closed witnesses and counterexamples: the claim theorems
themselves are parametric in the collaborators.
-/

/-- A trivial palpy instantiation over ℚ: every primitive returns its
positional inputs or zeros.  Used to close universally quantified claim
theorems at a concrete, computable input. -/
def trivPalpy : Palpy ℚ where
  mappa := fun _ _ => []
  dcc2s := fun _ => (0, 0)
  refco := fun _ _ _ _ _ _ _ _ => (0, 0)
  refz := fun z _ _ => z
  refzVector := fun xs _ _ => xs
  prenut := fun _ _ => []
  epj := fun x => x
  pm := fun r d _ _ _ _ _ _ => (r, d)
  pmVector := fun r d _ _ _ _ _ _ => (r, d)
  mapqkVector := fun r d _ _ _ _ _ => (r, d)
  ampqkVector := fun r d _ => (r, d)
  aoppa := fun _ _ _ _ _ _ _ _ _ _ _ _ => []
  aopqkVector := fun r d _ => (r, r, r, d, r)
  de2hVector := fun h d _ => (h, d)
  oapqkVector := fun _ r d _ => (r, d)

/-- A palpy instantiation over ℚ whose refraction primitive squares the
zenith distance: a concrete stand-in external primitive under which a
function that skips the degree/radian conversions is distinguishable from
one that performs them. -/
def quadPalpy : Palpy ℚ := { trivPalpy with refz := fun z _ _ => z * z }

/-- A palpy instantiation over ℚ whose aoppa primitive records its twelve
positional arguments as its output array, exhibiting exactly what the
embedded code passes to it. -/
def probePalpy : Palpy ℚ :=
  { trivPalpy with
    aoppa := fun utc dut lon lat hgt xp yp tdk prs hum wav lr =>
      [utc, dut, lon, lat, hgt, xp, yp, tdk, prs, hum, wav, lr] }

/-- A trivial astropy instantiation over ℚ: every time-scale conversion is
the identity and the IERS-dependent lookups succeed. -/
def idAstropy : Astropy ℚ where
  utc_of := fun _ v => v
  tai_of := fun _ v => v
  tt_of := fun _ v => v
  tdb_of := fun _ v => v
  ut1_of := fun _ v => some v
  delta_ut1 := fun _ _ => some 0

/-- An astropy instantiation over ℚ describing an instant outside the IERS
earth-orientation table: the UT1 conversion and the offset lookup both
raise (return none). -/
def outsideAstropy : Astropy ℚ :=
  { idAstropy with
    ut1_of := fun _ _ => none
    delta_ut1 := fun _ _ => none }

/-- Trivial transcendental services over ℚ: cosine constantly one, pi
replaced by 3 (any value does for control-flow witnesses). -/
def trivFloatOps : FloatOps ℚ where
  cos := fun _ => 1
  pi := 3

/-- A trivial spherical-geometry collaborator instantiation over ℚ. -/
def trivCollab : SimsUtilsCollab ℚ where
  haversine := fun r _ _ _ => r
  cartesianFromSpherical := fun _ _ => []
  sphericalFromCartesian := fun _ => (.scalar 0, .scalar 0)

/-- A concrete site over ℚ: 20 Celsius, hence 293.15 Kelvin. -/
def testSite : Site ℚ where
  longitude_rad := 1
  latitude_rad := 2
  height := 300
  temperature := 20
  temperature_kelvin := 29315 / 100
  pressure := 700
  humidity := 4 / 10
  lapseRate := 1 / 100
  kelvin_is_celsius_shifted := by norm_num

/-- A concrete ModifiedJulianDate over ℚ, constructed from a TAI value. -/
def testMJD : ModifiedJulianDate ℚ where
  time_scale := .tai
  time_value := 59580

/-- A concrete observation context over ℚ with both site and mjd present. -/
def testObs : ObservationMetaData ℚ where
  site := some testSite
  mjd := some testMJD

/-
Helper lemmas: reduction of the Except monad operations used by the
embedded do-blocks.
-/

@[simp] theorem exceptBind_ok {ε α β : Type} (a : α) (f : α → Except ε β) :
    (Except.ok a >>= f) = f a := rfl

@[simp] theorem exceptBind_error {ε α β : Type} (e : ε)
    (f : α → Except ε β) : ((Except.error e : Except ε α) >>= f) = .error e :=
  rfl

@[simp] theorem exceptPure_eq_ok {ε α : Type} (a : α) :
    (pure a : Except ε α) = .ok a := rfl

@[simp] theorem exceptThrow_eq_error {ε α : Type} (e : ε) :
    (throw e : Except ε α) = .error e := rfl

@[simp] theorem exceptBind_okEta {ε α : Type} (x : Except ε α) :
    (x >>= fun a => Except.ok a) = x := by cases x <;> rfl

theorem listBroadcast_same_length {R : Type} [Zero R] (f : R → R → R)
    (as bs : List R) (h : as.length = bs.length) :
    listBroadcast f as bs = .ok (List.zipWith f as bs) := by
  simp [listBroadcast, h]

theorem zipWith_div_replicate_zero {R : Type} [Field R] (ys : List R) :
    List.zipWith (fun a b => a / b) (List.replicate ys.length (0 : R)) ys =
      List.replicate ys.length 0 := by
  induction ys with
  | nil => rfl
  | cons y ys ih => simp [List.replicate_succ, ih]

/-- Claim C1, counterexample: constructing an Instant with BOTH the TAI and
the UTC input supplied succeeds (silently keeping the TAI value), where the
claim says it must fail with a configuration error. -/
theorem claim_C1_counterexample :
    ModifiedJulianDate.construct (R := ℚ) (some 1) (some 2) =
      .ok { time_scale := .tai, time_value := 1 } := rfl

/-- Claim C1, amended: constructing an Instant fails with a configuration
error exactly when NEITHER of the two inputs is supplied; whenever the TAI
input is supplied (also when the UTC input is supplied alongside it)
construction succeeds from the TAI value, and with only the UTC input it
succeeds from the UTC value. -/
theorem claim_C1_theorem {R : Type} (TAI UTC : Option R) :
    ((ModifiedJulianDate.construct TAI UTC).succeeded = false ↔
      TAI = none ∧ UTC = none)
    ∧ (∀ t : R, TAI = some t →
        ModifiedJulianDate.construct TAI UTC =
          .ok { time_scale := .tai, time_value := t })
    ∧ (∀ u : R, TAI = none → UTC = some u →
        ModifiedJulianDate.construct TAI UTC =
          .ok { time_scale := .utc, time_value := u }) := by
  refine ⟨?_, ?_, ?_⟩
  · cases TAI <;> cases UTC <;>
      simp [ModifiedJulianDate.construct, Except.succeeded]
  · rintro t rfl
    cases UTC <;> rfl
  · rintro u rfl rfl
    rfl

/-- Closed witness for claim C1: the amended theorem applied at concrete
inputs over ℚ. -/
theorem claim_C1_witness :
    ((ModifiedJulianDate.construct (R := ℚ) none none).succeeded = false)
    ∧ ModifiedJulianDate.construct (R := ℚ) (some 5) none =
        .ok { time_scale := .tai, time_value := 5 } :=
  ⟨(claim_C1_theorem none none).1.mpr ⟨rfl, rfl⟩,
   (claim_C1_theorem (some 5) none).2.1 5 rfl⟩

/-- Claim C9: for an Instant whose requested time lies outside the IERS
earth-orientation table (both the UT1 conversion and the offset lookup
raise), reading UT1 returns the UTC value with a warning and reading dut1
returns 0 with a warning.  Both properties are total functions of the
embedding, so neither access raises an error. -/
theorem claim_C9_theorem {R : Type} [Zero R] (A : Astropy R)
    (m : ModifiedJulianDate R)
    (h1 : A.ut1_of m.time_scale m.time_value = none)
    (h2 : A.delta_ut1 m.time_scale m.time_value = none) :
    (m.UT1 A).1 = m.UTC A ∧ (m.UT1 A).2 ≠ [] ∧
    (m.dut1 A).1 = 0 ∧ (m.dut1 A).2 ≠ [] := by
  simp [ModifiedJulianDate.UT1, ModifiedJulianDate.dut1, h1, h2]

/-- Closed witness for claim C9: the theorem applied to a concrete Instant
and an astropy bundle whose IERS lookups fail. -/
theorem claim_C9_witness :
    outsideAstropy.ut1_of testMJD.time_scale testMJD.time_value = none
    ∧ outsideAstropy.delta_ut1 testMJD.time_scale testMJD.time_value = none
    ∧ ((testMJD.UT1 outsideAstropy).1 = testMJD.UTC outsideAstropy
       ∧ (testMJD.UT1 outsideAstropy).2 ≠ []
       ∧ (testMJD.dut1 outsideAstropy).1 = 0
       ∧ (testMJD.dut1 outsideAstropy).2 ≠ []) :=
  ⟨rfl, rfl, claim_C9_theorem outsideAstropy testMJD rfl rfl⟩

/-- Claim C2 (code bug): with a palpy bundle whose aoppa primitive records
its twelve arguments, the no-refraction path passes the same time, dut1,
geometry, wavelength and lapse-rate inputs as the refraction path and zeroes
pressure and humidity, BUT its temperature argument is the sites Celsius
`temperature` attribute where the refraction path passes
`temperature_kelvin`; the two temperature inputs always differ (by 273.15),
so the inputs other than pressure and humidity are NOT all identical, as
both the claim and the source comment (we can discard refraction by setting
pressure and humidity to zero) intend. -/
theorem claim_C2_theorem (s : Site ℚ) (m : ModifiedJulianDate ℚ)
    (A : Astropy ℚ) (w : ℚ) :
    calculateObservatoryParameters probePalpy A
        (some { site := some s, mjd := some m }) w false =
      .ok [m.UTC A, (m.dut1 A).1, s.longitude_rad, s.latitude_rad, s.height,
        0, 0, s.temperature, 0, 0, w, s.lapseRate]
    ∧ calculateObservatoryParameters probePalpy A
        (some { site := some s, mjd := some m }) w true =
      .ok [m.UTC A, (m.dut1 A).1, s.longitude_rad, s.latitude_rad, s.height,
        0, 0, s.temperature_kelvin, s.pressure, s.humidity, w, s.lapseRate]
    ∧ s.temperature ≠ s.temperature_kelvin := by
  refine ⟨?_, ?_, ?_⟩
  · simp [calculateObservatoryParameters, attrGet, probePalpy, trivPalpy]
  · simp [calculateObservatoryParameters, attrGet, probePalpy, trivPalpy]
  · intro he
    have h := s.kelvin_is_celsius_shifted
    rw [← he] at h
    linarith

/-- Claim C5, amended: every explicit missing-context validation in the
pipeline fails with a configuration error (an explicit RuntimeError) and no
partial result: refractionCoefficients without a site; observedFromAppGeo,
appGeoFromObserved, observedFromICRS and icrsFromObserved without an
observation context, without a site, without an mjd, or without an epoch;
applyPrecession, applyProperMotion and appGeoFromICRS without an mjd.  The
exception: icrsFromAppGeo performs NO mjd validation, and with mjd=None it
fails through the unchecked attribute access mjd.TDB with an
AttributeError, not with a configuration error. -/
theorem claim_C5_theorem {R : Type} [Field R] :
    (∀ (P : Palpy R) (w : R),
      refractionCoefficients P w none =
        .error (.runtimeError
          "Cannot call refractionCoefficients; no site information"))
    ∧ (∀ (P : Palpy R) (A : Astropy R) (ra dec : List R) (iR aH : Bool)
        (w : R),
      observedFromAppGeoRad P A ra dec iR aH w none =
        .error (.runtimeError
          "Cannot call observedFromAppGeo without an obs_metadata"))
    ∧ (∀ (P : Palpy R) (A : Astropy R) (ra dec : List R) (iR aH : Bool)
        (w : R) (mj : Option (ModifiedJulianDate R)),
      observedFromAppGeoRad P A ra dec iR aH w
          (some { site := none, mjd := mj }) =
        .error (.runtimeError
          "Cannot call observedFromAppGeo: obs_metadata has no site info"))
    ∧ (∀ (P : Palpy R) (A : Astropy R) (ra dec : List R) (iR aH : Bool)
        (w : R) (s : Site R),
      observedFromAppGeoRad P A ra dec iR aH w
          (some { site := some s, mjd := none }) =
        .error (.runtimeError
          "Cannot call observedFromAppGeo: obs_metadata has no mjd"))
    ∧ (∀ (P : Palpy R) (A : Astropy R) (ra dec : List R) (e : R),
      icrsFromAppGeoRad P A ra dec e none =
        .error (.attributeError "NoneType object has no attribute TDB"))
    ∧ (∀ (P : Palpy R) (A : Astropy R) (ra dec : List R) (iR : Bool) (w : R),
      appGeoFromObservedRad P A ra dec iR w none =
        .error (.runtimeError
          "Cannot call appGeoFromObserved without an obs_metadata"))
    ∧ (∀ (P : Palpy R) (A : Astropy R) (ra dec : List R) (iR : Bool) (w : R)
        (mj : Option (ModifiedJulianDate R)),
      appGeoFromObservedRad P A ra dec iR w
          (some { site := none, mjd := mj }) =
        .error (.runtimeError
          "Cannot call appGeoFromObserved: obs_metadata has no site info"))
    ∧ (∀ (P : Palpy R) (A : Astropy R) (ra dec : List R) (iR : Bool) (w : R)
        (s : Site R),
      appGeoFromObservedRad P A ra dec iR w
          (some { site := some s, mjd := none }) =
        .error (.runtimeError
          "Cannot call appGeoFromObserved: obs_metadata has no mjd"))
    ∧ (∀ (P : Palpy R) (A : Astropy R) (O : FloatOps R) (ra dec : List R)
        (pr pd px vr : Option (List R)) (e : Option R) (iR : Bool),
      observedFromICRSRad P A O ra dec pr pd px vr none e iR =
        .error (.runtimeError
          "cannot call observedFromICRS; obs_metadata is none"))
    ∧ (∀ (P : Palpy R) (A : Astropy R) (O : FloatOps R) (ra dec : List R)
        (pr pd px vr : Option (List R)) (s : Option (Site R)) (e : Option R)
        (iR : Bool),
      observedFromICRSRad P A O ra dec pr pd px vr
          (some { site := s, mjd := none }) e iR =
        .error (.runtimeError
          "cannot call observedFromICRS; obs_metadata.mjd is none"))
    ∧ (∀ (P : Palpy R) (A : Astropy R) (O : FloatOps R) (ra dec : List R)
        (pr pd px vr : Option (List R)) (s : Option (Site R))
        (m : ModifiedJulianDate R) (iR : Bool),
      observedFromICRSRad P A O ra dec pr pd px vr
          (some { site := s, mjd := some m }) none iR =
        .error (.runtimeError
          "cannot call observedFromICRS; you have not specified an epoch"))
    ∧ (∀ (P : Palpy R) (A : Astropy R) (ra dec : List R) (e : Option R)
        (iR : Bool),
      icrsFromObservedRad P A ra dec none e iR =
        .error (.runtimeError
          "cannot call icrsFromObserved; obs_metadata is None"))
    ∧ (∀ (P : Palpy R) (A : Astropy R) (ra dec : List R)
        (s : Option (Site R)) (e : Option R) (iR : Bool),
      icrsFromObservedRad P A ra dec (some { site := s, mjd := none }) e
          iR =
        .error (.runtimeError
          "cannot call icrsFromObserved; obs_metadata.mjd is None"))
    ∧ (∀ (P : Palpy R) (A : Astropy R) (ra dec : List R)
        (s : Option (Site R)) (m : ModifiedJulianDate R) (iR : Bool),
      icrsFromObservedRad P A ra dec (some { site := s, mjd := some m })
          none iR =
        .error (.runtimeError
          "cannot call icrsFromObserved; you have not specified an epoch"))
    ∧ (∀ (P : Palpy R) (C : SimsUtilsCollab R) (A : Astropy R) (x y e : R),
      applyPrecessionRad P C A (.scalar x) (.scalar y) e none =
        .error (.runtimeError "You need to supply applyPrecession with an mjd"))
    ∧ (∀ (P : Palpy R) (A : Astropy R) (O : FloatOps R)
        (ra dec pr pd px vr : NpVal R) (e : R),
      applyProperMotionRad P A O ra dec pr pd px vr e none =
        .error (.runtimeError "cannot call applyProperMotion; mjd is None"))
    ∧ (∀ (P : Palpy R) (A : Astropy R) (O : FloatOps R) (ra dec : List R)
        (pr pd px vr : Option (List R)) (e : R),
      appGeoFromICRSRad P A O ra dec pr pd px vr e none =
        .error (.runtimeError "cannot call appGeoFromICRS; mjd is None")) := by
  refine ⟨?_, ?_, ?_, ?_, ?_, ?_, ?_, ?_, ?_, ?_, ?_, ?_, ?_, ?_, ?_, ?_,
    ?_⟩ <;> intros <;> rfl

/-- Claim C5, counterexample: icrsFromAppGeo called with mjd=None does NOT
fail with a configuration error (its AttributeError failure is an unchecked
attribute access, not a validation RuntimeError). -/
theorem claim_C5_counterexample :
    (icrsFromAppGeoRad trivPalpy idAstropy [0] [0] 2000
        (none : Option (ModifiedJulianDate ℚ))).failedWithConfigError =
      false := rfl

theorem arcsecFromRadians_zero {R : Type} [Field R] (O : FloatOps R) :
    arcsecFromRadians O 0 = 0 := by
  simp [arcsecFromRadians, degreesC]

/-- On all-array inputs of equal lengths, `_applyProperMotion` reaches the
palpy space-motion primitive with the RA proper motion divided by cos(dec)
elementwise. -/
theorem applyProperMotionRad_array_ok {R : Type} [Field R] (P : Palpy R)
    (A : Astropy R) (O : FloatOps R) (ras decs pmr pmd px vr : List R)
    (epoch : R) (m : ModifiedJulianDate R)
    (h1 : decs.length = ras.length) (h2 : pmr.length = ras.length)
    (h3 : pmd.length = ras.length) (h4 : px.length = ras.length)
    (h5 : vr.length = ras.length) :
    applyProperMotionRad P A O (.array ras) (.array decs) (.array pmr)
        (.array pmd) (.array px) (.array vr) epoch (some m) =
      .ok (.array (P.pmVector ras decs
            (List.zipWith (fun a b => a / b) pmr (decs.map O.cos)) pmd
            (px.map (arcsecFromRadians O)) vr epoch (P.epj (m.TT A))).1,
          .array (P.pmVector ras decs
            (List.zipWith (fun a b => a / b) pmr (decs.map O.cos)) pmd
            (px.map (arcsecFromRadians O)) vr epoch (P.epj (m.TT A))).2) := by
  have hb : listBroadcast (fun a b : R => a / b) pmr (decs.map O.cos) =
      .ok (List.zipWith (fun a b => a / b) pmr (decs.map O.cos)) :=
    listBroadcast_same_length _ _ _ (by simp [h1, h2])
  simp [applyProperMotionRad, npMap, npBroadcast, hb, npLen, npAsArray,
    Except.map, h1, h2, h3, h4, h5]

/-- On all-array inputs, `_applyProperMotion` fails whenever the six array
lengths are not all equal (either at the numpy broadcast of the cos(dec)
division or at the explicit six-way length validation). -/
theorem applyProperMotionRad_array_mismatch {R : Type} [Field R]
    (P : Palpy R) (A : Astropy R) (O : FloatOps R)
    (ras decs pmr pmd px vr : List R) (epoch : R) (m : ModifiedJulianDate R)
    (hne : ¬(decs.length = ras.length ∧ pmr.length = ras.length ∧
      pmd.length = ras.length ∧ px.length = ras.length ∧
      vr.length = ras.length)) :
    (applyProperMotionRad P A O (.array ras) (.array decs) (.array pmr)
        (.array pmd) (.array px) (.array vr) epoch (some m)).succeeded =
      false := by
  cases hbc : listBroadcast (fun a b : R => a / b) pmr (decs.map O.cos) with
  | error e =>
      simp [applyProperMotionRad, npMap, npBroadcast, hbc, Except.map,
        Except.succeeded]
  | ok val =>
      by_cases c1 : decs.length = ras.length
      · by_cases c2 : pmr.length = ras.length
        · by_cases c3 : pmd.length = ras.length
          · by_cases c4 : px.length = ras.length
            · by_cases c5 : vr.length = ras.length
              · exact absurd ⟨c1, c2, c3, c4, c5⟩ hne
              · simp [applyProperMotionRad, npMap, npBroadcast, hbc,
                  Except.map, npLen, Except.succeeded, c1, c2, c3, c4,
                  Ne.symm c5]
            · simp [applyProperMotionRad, npMap, npBroadcast, hbc,
                Except.map, npLen, Except.succeeded, c1, c2, c3, Ne.symm c4]
          · simp [applyProperMotionRad, npMap, npBroadcast, hbc, Except.map,
              npLen, Except.succeeded, c1, c2, Ne.symm c3]
        · simp [applyProperMotionRad, npMap, npBroadcast, hbc, Except.map,
            npLen, Except.succeeded, c1, Ne.symm c2]
      · simp [applyProperMotionRad, npMap, npBroadcast, hbc, Except.map,
          npLen, Except.succeeded, Ne.symm c1]

/-- `_appGeoFromICRS` rejects mismatched RA/Dec lengths with a
configuration error. -/
theorem appGeoFromICRSRad_mismatch {R : Type} [Field R] (P : Palpy R)
    (A : Astropy R) (O : FloatOps R) (ras decs : List R)
    (pr pd px vr : Option (List R)) (epoch : R) (m : ModifiedJulianDate R)
    (h : ras.length ≠ decs.length) :
    appGeoFromICRSRad P A O ras decs pr pd px vr epoch (some m) =
      .error (.runtimeError
        "appGeoFromICRS: len of ra does not match len of dec") := by
  simp [appGeoFromICRSRad, h]

/-- With every motion term omitted, `_appGeoFromICRS` passes zero arrays of
the RA length to the palpy primitive. -/
theorem appGeoFromICRSRad_defaults {R : Type} [Field R] (P : Palpy R)
    (A : Astropy R) (O : FloatOps R) (ras decs : List R) (epoch : R)
    (m : ModifiedJulianDate R) (h : ras.length = decs.length) :
    appGeoFromICRSRad P A O ras decs none none none none epoch (some m) =
      .ok (P.mapqkVector ras decs (List.replicate ras.length 0)
        (List.replicate ras.length 0) (List.replicate ras.length 0)
        (List.replicate ras.length 0) (P.mappa epoch (m.TDB A))) := by
  have hz : List.zipWith (fun a b : R => a / b)
      (List.replicate decs.length 0) (decs.map O.cos) =
      List.replicate decs.length 0 := by
    have hzz := zipWith_div_replicate_zero (decs.map O.cos)
    rw [List.length_map] at hzz
    exact hzz
  have hb : listBroadcast (fun a b : R => a / b)
      (List.replicate decs.length 0) (decs.map O.cos) =
      .ok (List.replicate decs.length 0) := by
    rw [listBroadcast_same_length _ _ _ (by simp), hz]
  simp [appGeoFromICRSRad, h, hb, Except.map, List.map_replicate,
    arcsecFromRadians_zero]

/-- With supplied motion terms whose lengths match, `_appGeoFromICRS`
reaches the palpy primitive with the RA proper motion divided by cos(dec)
elementwise. -/
theorem appGeoFromICRSRad_supplied_ok {R : Type} [Field R] (P : Palpy R)
    (A : Astropy R) (O : FloatOps R) (ras decs pmr pmd px vr : List R)
    (epoch : R) (m : ModifiedJulianDate R) (hra : ras.length = decs.length)
    (hpm : pmr.length = decs.length) :
    appGeoFromICRSRad P A O ras decs (some pmr) (some pmd) (some px)
        (some vr) epoch (some m) =
      .ok (P.mapqkVector ras decs
        (List.zipWith (fun a b => a / b) pmr (decs.map O.cos)) pmd
        (px.map (arcsecFromRadians O)) vr (P.mappa epoch (m.TDB A))) := by
  have hb : listBroadcast (fun a b : R => a / b) pmr (decs.map O.cos) =
      .ok (List.zipWith (fun a b => a / b) pmr (decs.map O.cos)) :=
    listBroadcast_same_length _ _ _ (by simp [hpm])
  simp [appGeoFromICRSRad, hra, hb, Except.map]

/-- When the supplied RA-proper-motion array can be broadcast neither way
against the batch (its length is neither the Dec length nor one, and the
batch length is not one), `_appGeoFromICRS` fails at the elementwise
cos(dec) division with a numpy broadcast ValueError - not with an
entry-point configuration error. -/
theorem appGeoFromICRSRad_broadcast_error {R : Type} [Field R] (P : Palpy R)
    (A : Astropy R) (O : FloatOps R) (ras decs pmr : List R)
    (pd px vr : Option (List R)) (epoch : R) (m : ModifiedJulianDate R)
    (h : ras.length = decs.length) (h1 : pmr.length ≠ decs.length)
    (h2 : pmr.length ≠ 1) (h3 : decs.length ≠ 1) :
    appGeoFromICRSRad P A O ras decs (some pmr) pd px vr epoch (some m) =
      .error (.valueError "operands could not be broadcast together") := by
  have hb : listBroadcast (fun a b : R => a / b) pmr (decs.map O.cos) =
      .error (.valueError "operands could not be broadcast together") := by
    simp [listBroadcast, List.length_map, h1, h2, h3]
  simp [appGeoFromICRSRad, h, hb, Except.map]

/-- On the all-scalar path, `_applyProperMotion` reaches the scalar palpy
space-motion primitive palpy.pm with the RA proper motion divided by
cos(dec), applied once. -/
theorem applyProperMotionRad_scalar_ok {R : Type} [Field R] (P : Palpy R)
    (A : Astropy R) (O : FloatOps R) (rx dx pmrx pmdx pxx vrx epoch : R)
    (m : ModifiedJulianDate R) :
    applyProperMotionRad P A O (.scalar rx) (.scalar dx) (.scalar pmrx)
        (.scalar pmdx) (.scalar pxx) (.scalar vrx) epoch (some m) =
      .ok (.scalar (P.pm rx dx (pmrx / O.cos dx) pmdx
            (arcsecFromRadians O pxx) vrx epoch (P.epj (m.TT A))).1,
          .scalar (P.pm rx dx (pmrx / O.cos dx) pmdx
            (arcsecFromRadians O pxx) vrx epoch (P.epj (m.TT A))).2) := rfl

/-- Claim C3, amended: applyProperMotion enforces identical lengths across
all six arrays of a batch (any mismatch fails, at the broadcast or at the
explicit six-way validation, and all-equal lengths succeed);
appGeoFromICRS enforces only that the RA and Dec lengths match - in
particular RA length 5 with Dec length 4 fails with a configuration error -
and replaces omitted proper-motion/parallax/radial-velocity inputs by zero
arrays of the RA length, but does NOT validate the lengths of supplied
motion arrays against the batch: a length-one supplied
RA-proper-motion array is silently broadcast (see the counterexample), an
RA-proper-motion array whose length is neither the batch length nor one
makes the elementwise cos(dec) division fail with a numpy broadcast
ValueError rather than an entry-point configuration error, and supplied
proper-motion-in-Dec/parallax/radial-velocity arrays of any length are
passed to the external primitive with no check at all (the call
succeeds). -/
theorem claim_C3_theorem {R : Type} [Field R] :
    (∀ (P : Palpy R) (A : Astropy R) (O : FloatOps R)
        (ras decs pmr pmd px vr : List R) (epoch : R)
        (m : ModifiedJulianDate R),
      ¬(decs.length = ras.length ∧ pmr.length = ras.length ∧
          pmd.length = ras.length ∧ px.length = ras.length ∧
          vr.length = ras.length) →
        (applyProperMotionRad P A O (.array ras) (.array decs) (.array pmr)
          (.array pmd) (.array px) (.array vr) epoch
          (some m)).succeeded = false)
    ∧ (∀ (P : Palpy R) (A : Astropy R) (O : FloatOps R)
        (ras decs pmr pmd px vr : List R) (epoch : R)
        (m : ModifiedJulianDate R),
      decs.length = ras.length → pmr.length = ras.length →
      pmd.length = ras.length → px.length = ras.length →
      vr.length = ras.length →
        (applyProperMotionRad P A O (.array ras) (.array decs) (.array pmr)
          (.array pmd) (.array px) (.array vr) epoch
          (some m)).succeeded = true)
    ∧ (∀ (P : Palpy R) (A : Astropy R) (O : FloatOps R) (ras decs : List R)
        (pr pd px vr : Option (List R)) (epoch : R)
        (m : ModifiedJulianDate R),
      ras.length ≠ decs.length →
        appGeoFromICRSRad P A O ras decs pr pd px vr epoch (some m) =
          .error (.runtimeError
            "appGeoFromICRS: len of ra does not match len of dec"))
    ∧ (∀ (P : Palpy R) (A : Astropy R) (O : FloatOps R) (ras decs : List R)
        (epoch : R) (m : ModifiedJulianDate R),
      ras.length = decs.length →
        appGeoFromICRSRad P A O ras decs none none none none epoch
            (some m) =
          .ok (P.mapqkVector ras decs (List.replicate ras.length 0)
            (List.replicate ras.length 0) (List.replicate ras.length 0)
            (List.replicate ras.length 0) (P.mappa epoch (m.TDB A))))
    ∧ (∀ (P : Palpy R) (A : Astropy R) (O : FloatOps R)
        (ras decs pmr : List R) (pd px vr : Option (List R)) (epoch : R)
        (m : ModifiedJulianDate R),
      ras.length = decs.length → pmr.length ≠ decs.length →
      pmr.length ≠ 1 → decs.length ≠ 1 →
        appGeoFromICRSRad P A O ras decs (some pmr) pd px vr epoch
            (some m) =
          .error (.valueError "operands could not be broadcast together"))
    ∧ (∀ (P : Palpy R) (A : Astropy R) (O : FloatOps R)
        (ras decs pmr pmd px vr : List R) (epoch : R)
        (m : ModifiedJulianDate R),
      ras.length = decs.length → pmr.length = decs.length →
        (appGeoFromICRSRad P A O ras decs (some pmr) (some pmd) (some px)
          (some vr) epoch (some m)).succeeded = true) := by
  refine ⟨?_, ?_, ?_, ?_, ?_, ?_⟩
  · intro P A O ras decs pmr pmd px vr epoch m hne
    exact applyProperMotionRad_array_mismatch P A O ras decs pmr pmd px vr
      epoch m hne
  · intro P A O ras decs pmr pmd px vr epoch m h1 h2 h3 h4 h5
    rw [applyProperMotionRad_array_ok P A O ras decs pmr pmd px vr epoch m
      h1 h2 h3 h4 h5]
    rfl
  · intro P A O ras decs pr pd px vr epoch m h
    exact appGeoFromICRSRad_mismatch P A O ras decs pr pd px vr epoch m h
  · intro P A O ras decs epoch m h
    exact appGeoFromICRSRad_defaults P A O ras decs epoch m h
  · intro P A O ras decs pmr pd px vr epoch m h h1 h2 h3
    exact appGeoFromICRSRad_broadcast_error P A O ras decs pmr pd px vr
      epoch m h h1 h2 h3
  · intro P A O ras decs pmr pmd px vr epoch m h hpm
    rw [appGeoFromICRSRad_supplied_ok P A O ras decs pmr pmd px vr epoch m
      h hpm]
    rfl

/-- Claim C3, counterexample: appGeoFromICRS with an RA/Dec batch of length
two and a SUPPLIED proper-motion-in-RA array of length one succeeds (the
length-one array is broadcast by the elementwise cos(dec) division), where
the claim says any two supplied arrays of differing lengths must fail with
a configuration error with no broadcast. -/
theorem claim_C3_counterexample :
    (appGeoFromICRSRad trivPalpy idAstropy trivFloatOps [0, 1] [0, 1]
        (some [5]) none none none 2000 (some testMJD)).succeeded = true :=
  rfl

/-- Closed witness for claim C3: its four quantified parts applied at
concrete inputs over ℚ, including the claimed RA-length-5/Dec-length-4
configuration error. -/
theorem claim_C3_witness :
    (¬([(0:ℚ)].length = [(0:ℚ), 0].length ∧
        [(0:ℚ), 0].length = [(0:ℚ), 0].length ∧
        [(0:ℚ), 0].length = [(0:ℚ), 0].length ∧
        [(0:ℚ), 0].length = [(0:ℚ), 0].length ∧
        [(0:ℚ), 0].length = [(0:ℚ), 0].length))
    ∧ ((applyProperMotionRad trivPalpy idAstropy trivFloatOps
        (.array [(0:ℚ), 0]) (.array [0]) (.array [0, 0]) (.array [0, 0])
        (.array [0, 0]) (.array [0, 0]) 2000 (some testMJD)).succeeded =
        false)
    ∧ ((applyProperMotionRad trivPalpy idAstropy trivFloatOps
        (.array [(0:ℚ)]) (.array [0]) (.array [0]) (.array [0])
        (.array [0]) (.array [0]) 2000 (some testMJD)).succeeded = true)
    ∧ (appGeoFromICRSRad trivPalpy idAstropy trivFloatOps
        [(0:ℚ), 0, 0, 0, 0] [0, 0, 0, 0] none none none none 2000
        (some testMJD) =
      .error (.runtimeError
        "appGeoFromICRS: len of ra does not match len of dec"))
    ∧ (appGeoFromICRSRad trivPalpy idAstropy trivFloatOps [(0:ℚ)] [0] none
        none none none 2000 (some testMJD) =
      .ok (trivPalpy.mapqkVector [0] [0] (List.replicate 1 0)
        (List.replicate 1 0) (List.replicate 1 0) (List.replicate 1 0)
        (trivPalpy.mappa 2000 (testMJD.TDB idAstropy))))
    ∧ (appGeoFromICRSRad trivPalpy idAstropy trivFloatOps [(0:ℚ), 0] [0, 0]
        (some [0, 0, 0]) none none none 2000 (some testMJD) =
      .error (.valueError "operands could not be broadcast together"))
    ∧ ((appGeoFromICRSRad trivPalpy idAstropy trivFloatOps [(0:ℚ), 0]
        [0, 0] (some [0, 0]) (some [0, 0, 0]) (some [0]) (some []) 2000
        (some testMJD)).succeeded = true) :=
  ⟨by decide,
   claim_C3_theorem.1 trivPalpy idAstropy trivFloatOps [0, 0] [0] [0, 0]
     [0, 0] [0, 0] [0, 0] 2000 testMJD (by decide),
   claim_C3_theorem.2.1 trivPalpy idAstropy trivFloatOps [0] [0] [0] [0]
     [0] [0] 2000 testMJD rfl rfl rfl rfl rfl,
   claim_C3_theorem.2.2.1 trivPalpy idAstropy trivFloatOps [0, 0, 0, 0, 0]
     [0, 0, 0, 0] none none none none 2000 testMJD (by decide),
   claim_C3_theorem.2.2.2.1 trivPalpy idAstropy trivFloatOps [0] [0] 2000
     testMJD rfl,
   claim_C3_theorem.2.2.2.2.1 trivPalpy idAstropy trivFloatOps [0, 0]
     [0, 0] [0, 0, 0] none none none 2000 testMJD rfl (by decide)
     (by decide) (by decide),
   claim_C3_theorem.2.2.2.2.2 trivPalpy idAstropy trivFloatOps [0, 0]
     [0, 0] [0, 0] [0, 0, 0] [0] [] 2000 testMJD rfl rfl⟩

/-- Claim C6: in both applyProperMotion and appGeoFromICRS, the
RA-proper-motion input handed to the palpy space-motion /
mean-to-apparent primitive is exactly the input divided by cos(dec),
applied once, on every call path: the array path of _applyProperMotion
(palpy.pmVector), its all-scalar path (palpy.pm), and _appGeoFromICRS
(palpy.mapqkVector).  The zipWith (respectively the scalar quotient) in
each conclusion is the single division site; the degrees-facing wrappers
delegate to these radian cores without further division, per the claim C8
theorem, and observedFromICRS delegates to appGeoFromICRS, per the claim
C4 theorem. -/
theorem claim_C6_theorem {R : Type} [Field R] (P : Palpy R) (A : Astropy R)
    (O : FloatOps R) (ras decs pmr pmd px vr : List R)
    (rx dx pmrx pmdx pxx vrx : R) (epoch : R) (m : ModifiedJulianDate R)
    (h1 : decs.length = ras.length) (h2 : pmr.length = ras.length)
    (h3 : pmd.length = ras.length) (h4 : px.length = ras.length)
    (h5 : vr.length = ras.length) :
    (applyProperMotionRad P A O (.array ras) (.array decs) (.array pmr)
        (.array pmd) (.array px) (.array vr) epoch (some m) =
      .ok (.array (P.pmVector ras decs
            (List.zipWith (fun a b => a / b) pmr (decs.map O.cos)) pmd
            (px.map (arcsecFromRadians O)) vr epoch (P.epj (m.TT A))).1,
          .array (P.pmVector ras decs
            (List.zipWith (fun a b => a / b) pmr (decs.map O.cos)) pmd
            (px.map (arcsecFromRadians O)) vr epoch (P.epj (m.TT A))).2))
    ∧ (appGeoFromICRSRad P A O ras decs (some pmr) (some pmd) (some px)
        (some vr) epoch (some m) =
      .ok (P.mapqkVector ras decs
        (List.zipWith (fun a b => a / b) pmr (decs.map O.cos)) pmd
        (px.map (arcsecFromRadians O)) vr (P.mappa epoch (m.TDB A))))
    ∧ (applyProperMotionRad P A O (.scalar rx) (.scalar dx) (.scalar pmrx)
        (.scalar pmdx) (.scalar pxx) (.scalar vrx) epoch (some m) =
      .ok (.scalar (P.pm rx dx (pmrx / O.cos dx) pmdx
            (arcsecFromRadians O pxx) vrx epoch (P.epj (m.TT A))).1,
          .scalar (P.pm rx dx (pmrx / O.cos dx) pmdx
            (arcsecFromRadians O pxx) vrx epoch (P.epj (m.TT A))).2)) :=
  ⟨applyProperMotionRad_array_ok P A O ras decs pmr pmd px vr epoch m h1 h2
      h3 h4 h5,
   appGeoFromICRSRad_supplied_ok P A O ras decs pmr pmd px vr epoch m
      h1.symm (h2.trans h1.symm),
   applyProperMotionRad_scalar_ok P A O rx dx pmrx pmdx pxx vrx epoch m⟩

/-- Closed witness for claim C6: the theorem applied at a concrete
one-star batch and a concrete scalar star over ℚ (cos constantly 1, so the
divided proper motion is visible unchanged). -/
theorem claim_C6_witness :
    ([(0:ℚ)].length = [(0:ℚ)].length)
    ∧ (applyProperMotionRad trivPalpy idAstropy trivFloatOps
        (.array [(0:ℚ)]) (.array [0]) (.array [6]) (.array [0])
        (.array [0]) (.array [0]) 2000 (some testMJD) =
      .ok (.array [0], .array [0]))
    ∧ (appGeoFromICRSRad trivPalpy idAstropy trivFloatOps [(0:ℚ)] [0]
        (some [6]) (some [0]) (some [0]) (some [0]) 2000 (some testMJD) =
      .ok ([0], [0]))
    ∧ (applyProperMotionRad trivPalpy idAstropy trivFloatOps
        (.scalar (0:ℚ)) (.scalar 0) (.scalar 6) (.scalar 0) (.scalar 0)
        (.scalar 0) 2000 (some testMJD) = .ok (.scalar 0, .scalar 0)) :=
  ⟨rfl,
   (claim_C6_theorem trivPalpy idAstropy trivFloatOps [0] [0] [6] [0] [0]
     [0] 0 0 6 0 0 0 2000 testMJD rfl rfl rfl rfl rfl).1,
   (claim_C6_theorem trivPalpy idAstropy trivFloatOps [0] [0] [6] [0] [0]
     [0] 0 0 6 0 0 0 2000 testMJD rfl rfl rfl rfl rfl).2.1,
   (claim_C6_theorem trivPalpy idAstropy trivFloatOps [0] [0] [6] [0] [0]
     [0] 0 0 6 0 0 0 2000 testMJD rfl rfl rfl rfl rfl).2.2⟩

/-- Claim C4: with the observation context, its Instant and the epoch
present and the RA/Dec lengths matching, observedFromICRS IS the monadic
composition of appGeoFromICRS followed by observedFromAppGeo, and
icrsFromObserved IS appGeoFromObserved followed by icrsFromAppGeo - in
radians throughout, passing the same motion terms, epoch, Instant and
refraction flag, with the composition defaults altAzHr = false and
wavelength = 0.5, and with no unit conversion between the stages. -/
theorem claim_C4_theorem {R : Type} [Field R] (P : Palpy R) (A : Astropy R)
    (O : FloatOps R) (ra dec : List R)
    (pm_ra pm_dec parallax v_rad : Option (List R))
    (o : ObservationMetaData R) (m : ModifiedJulianDate R) (e : R)
    (iR : Bool) (h1 : o.mjd = some m) (h2 : ra.length = dec.length) :
    (observedFromICRSRad P A O ra dec pm_ra pm_dec parallax v_rad (some o)
        (some e) iR =
      (appGeoFromICRSRad P A O ra dec pm_ra pm_dec parallax v_rad e (some m)
        >>= fun app =>
          observedFromAppGeoRad P A app.1 app.2 iR false (1 / 2) (some o)
            >>= fun r => pure r.1))
    ∧ (icrsFromObservedRad P A ra dec (some o) (some e) iR =
      (appGeoFromObservedRad P A ra dec iR (1 / 2) (some o) >>= fun app =>
        icrsFromAppGeoRad P A app.1 app.2 e (some m))) := by
  constructor
  · simp [observedFromICRSRad, h1, h2]
  · simp [icrsFromObservedRad, h1, h2]

/-- Closed witness for claim C4: the theorem applied at a concrete
one-star batch and a concrete observation context over ℚ. -/
theorem claim_C4_witness :
    (testObs.mjd = some testMJD) ∧ ([(0:ℚ)].length = [(0:ℚ)].length)
    ∧ (observedFromICRSRad trivPalpy idAstropy trivFloatOps [0] [0] none
        none none none (some testObs) (some 2000) true =
      (appGeoFromICRSRad trivPalpy idAstropy trivFloatOps [0] [0] none none
          none none 2000 (some testMJD) >>= fun app =>
        observedFromAppGeoRad trivPalpy idAstropy app.1 app.2 true false
          (1 / 2) (some testObs) >>= fun r => pure r.1))
    ∧ (icrsFromObservedRad trivPalpy idAstropy [0] [0] (some testObs)
        (some 2000) true =
      (appGeoFromObservedRad trivPalpy idAstropy [0] [0] true (1 / 2)
          (some testObs) >>= fun app =>
        icrsFromAppGeoRad trivPalpy idAstropy app.1 app.2 2000
          (some testMJD))) :=
  ⟨rfl, rfl,
   (claim_C4_theorem trivPalpy idAstropy trivFloatOps [0] [0] none none
     none none testObs testMJD 2000 true rfl rfl).1,
   (claim_C4_theorem trivPalpy idAstropy trivFloatOps [0] [0] none none
     none none testObs testMJD 2000 true rfl rfl).2⟩

theorem exceptBindPure_eq_map {ε α β : Type} (f : α → β) (x : Except ε α) :
    (x >>= fun a => pure (f a)) = Except.map f x := by cases x <;> rfl

theorem exceptBindOkF_eq_map {ε α β : Type} (f : α → β) (x : Except ε α) :
    (x >>= fun a => Except.ok (f a)) = Except.map f x := by cases x <;> rfl

/-- Claim C8, amended: ten of the twelve public functions - all except
refractionCoefficients and applyRefraction - are degrees-facing wrappers
around radians-facing cores: each equals converting its angular inputs to
radians (degrees to radians for coordinates, arcseconds to radians for
motion terms, with omitted optional terms left omitted), calling the
radians core, and converting the angular outputs back to degrees, with all
the computation in the core.  refractionCoefficients and applyRefraction
exist only in a single public radians-facing form with no wrapper/core
split (see the counterexample). -/
theorem claim_C8_theorem {R : Type} [Field R] :
    (∀ (P : Palpy R) (O : FloatOps R) (mjd e : R),
      solarRaDec P O mjd e =
        (degreesC O (solarRaDecRad P mjd e).1,
         degreesC O (solarRaDecRad P mjd e).2))
    ∧ (∀ (P : Palpy R) (C : SimsUtilsCollab R) (O : FloatOps R)
        (ra dec : NpVal R) (mjd e : R),
      distanceToSun P C O ra dec mjd e =
        npMap (degreesC O) (distanceToSunRad P C (npMap (radiansC O) ra)
          (npMap (radiansC O) dec) mjd e))
    ∧ (∀ (P : Palpy R) (C : SimsUtilsCollab R) (A : Astropy R)
        (O : FloatOps R) (ra dec : NpVal R) (e : R)
        (mjd : Option (ModifiedJulianDate R)),
      applyPrecession P C A O ra dec e mjd =
        Except.map (fun p => (npMap (degreesC O) p.1, npMap (degreesC O) p.2))
          (applyPrecessionRad P C A (npMap (radiansC O) ra)
            (npMap (radiansC O) dec) e mjd))
    ∧ (∀ (P : Palpy R) (A : Astropy R) (O : FloatOps R)
        (ra dec pm_ra pm_dec parallax v_rad : NpVal R) (e : R)
        (mjd : Option (ModifiedJulianDate R)),
      applyProperMotion P A O ra dec pm_ra pm_dec parallax v_rad e mjd =
        Except.map (fun p => (npMap (degreesC O) p.1, npMap (degreesC O) p.2))
          (applyProperMotionRad P A O (npMap (radiansC O) ra)
            (npMap (radiansC O) dec) (npMap (radiansFromArcsec O) pm_ra)
            (npMap (radiansFromArcsec O) pm_dec)
            (npMap (radiansFromArcsec O) parallax) v_rad e mjd))
    ∧ (∀ (P : Palpy R) (A : Astropy R) (O : FloatOps R) (ra dec : List R)
        (pm_ra pm_dec parallax v_rad : Option (List R)) (e : R)
        (mjd : Option (ModifiedJulianDate R)),
      appGeoFromICRS P A O ra dec pm_ra pm_dec parallax v_rad e mjd =
        Except.map (fun p => (p.1.map (degreesC O), p.2.map (degreesC O)))
          (appGeoFromICRSRad P A O (ra.map (radiansC O))
            (dec.map (radiansC O))
            (pm_ra.map (List.map (radiansFromArcsec O)))
            (pm_dec.map (List.map (radiansFromArcsec O)))
            (parallax.map (List.map (radiansFromArcsec O))) v_rad e mjd))
    ∧ (∀ (P : Palpy R) (A : Astropy R) (O : FloatOps R) (ra dec : List R)
        (e : R) (mjd : Option (ModifiedJulianDate R)),
      icrsFromAppGeo P A O ra dec e mjd =
        Except.map (fun p => (p.1.map (degreesC O), p.2.map (degreesC O)))
          (icrsFromAppGeoRad P A (ra.map (radiansC O))
            (dec.map (radiansC O)) e mjd))
    ∧ (∀ (P : Palpy R) (A : Astropy R) (O : FloatOps R) (ra dec : List R)
        (iR aH : Bool) (w : R) (obs : Option (ObservationMetaData R)),
      observedFromAppGeo P A O ra dec iR aH w obs =
        Except.map (fun r =>
            ((r.1.1.map (degreesC O), r.1.2.map (degreesC O)),
             r.2.map (fun q => (q.1.map (degreesC O), q.2.map (degreesC O)))))
          (observedFromAppGeoRad P A (ra.map (radiansC O))
            (dec.map (radiansC O)) iR aH w obs))
    ∧ (∀ (P : Palpy R) (A : Astropy R) (O : FloatOps R) (ra dec : List R)
        (iR : Bool) (w : R) (obs : Option (ObservationMetaData R)),
      appGeoFromObserved P A O ra dec iR w obs =
        Except.map (fun p => (p.1.map (degreesC O), p.2.map (degreesC O)))
          (appGeoFromObservedRad P A (ra.map (radiansC O))
            (dec.map (radiansC O)) iR w obs))
    ∧ (∀ (P : Palpy R) (A : Astropy R) (O : FloatOps R) (ra dec : List R)
        (pm_ra pm_dec parallax v_rad : Option (List R))
        (obs : Option (ObservationMetaData R)) (e : Option R) (iR : Bool),
      observedFromICRS P A O ra dec pm_ra pm_dec parallax v_rad obs e iR =
        Except.map (fun p => (p.1.map (degreesC O), p.2.map (degreesC O)))
          (observedFromICRSRad P A O (ra.map (radiansC O))
            (dec.map (radiansC O))
            (pm_ra.map (List.map (radiansFromArcsec O)))
            (pm_dec.map (List.map (radiansFromArcsec O)))
            (parallax.map (List.map (radiansFromArcsec O))) v_rad obs e iR))
    ∧ (∀ (P : Palpy R) (A : Astropy R) (O : FloatOps R) (ra dec : List R)
        (obs : Option (ObservationMetaData R)) (e : Option R) (iR : Bool),
      icrsFromObserved P A O ra dec obs e iR =
        Except.map (fun p => (p.1.map (degreesC O), p.2.map (degreesC O)))
          (icrsFromObservedRad P A (ra.map (radiansC O))
            (dec.map (radiansC O)) obs e iR)) := by
  refine ⟨?_, ?_, ?_, ?_, ?_, ?_, ?_, ?_, ?_, ?_⟩
  · intros; rfl
  · intros; rfl
  · intro P C A O ra dec e mjd
    simp [applyPrecession, exceptBindPure_eq_map, exceptBindOkF_eq_map]
  · intro P A O ra dec pm_ra pm_dec parallax v_rad e mjd
    simp [applyProperMotion, exceptBindPure_eq_map, exceptBindOkF_eq_map]
  · intro P A O ra dec pm_ra pm_dec parallax v_rad e mjd
    cases pm_ra <;> cases pm_dec <;> cases parallax <;>
      simp [appGeoFromICRS, exceptBindPure_eq_map, exceptBindOkF_eq_map]
  · intro P A O ra dec e mjd
    simp [icrsFromAppGeo, exceptBindPure_eq_map, exceptBindOkF_eq_map]
  · intro P A O ra dec iR aH w obs
    simp [observedFromAppGeo, exceptBindPure_eq_map, exceptBindOkF_eq_map]
  · intro P A O ra dec iR w obs
    simp [appGeoFromObserved, exceptBindPure_eq_map, exceptBindOkF_eq_map]
  · intro P A O ra dec pm_ra pm_dec parallax v_rad obs e iR
    cases pm_ra <;> cases pm_dec <;> cases parallax <;>
      simp [observedFromICRS, exceptBindPure_eq_map, exceptBindOkF_eq_map]
  · intro P A O ra dec obs e iR
    simp [icrsFromObserved, exceptBindPure_eq_map, exceptBindOkF_eq_map]

/-- Claim C8, counterexample: applyRefraction is not a degrees-facing
wrapper around the radians-facing refraction computation.  The source
declares its zenith-distance input and output to be radians and contains no
underscore core for it (nor for refractionCoefficients), unlike the other
ten functions; concretely, with an external refraction primitive that
squares the zenith distance, the value applyRefraction computes at input 1
differs from what converting the input to radians, applying the same
primitive and converting back to degrees returns. -/
theorem claim_C8_counterexample :
    applyRefraction quadPalpy (NpVal.scalar (1 : ℚ)) 0 0 ≠
      npMap (degreesC trivFloatOps)
        (applyRefraction quadPalpy
          (npMap (radiansC trivFloatOps) (NpVal.scalar 1)) 0 0) := by
  simp only [applyRefraction, quadPalpy, trivPalpy, trivFloatOps, npMap,
    degreesC, radiansC, ne_eq, NpVal.scalar.injEq]
  norm_num
